import Mathlib

/-!
# Verification of the flutter-release rebranding-and-release pipeline

Shallow embedding of the repository's JavaScript sources (`android.js`,
`ios.js`, `main.js` and the unnamed variants `part_000`..`part_002`).

The file system is modelled as an association list from paths (lists of
segments) to file contents (strings).  Directories are implicit: a directory
exists when some file lives at or below its path, matching how the scripts
only ever test `fs.existsSync` / `fs.pathExists` on paths they subsequently
read or copy.  `fs-extra` operations (`copySync`, `moveSync`, `removeSync`,
`ensureDirSync`, `copyFileSync`) are embedded by their documented contracts.
JavaScript regular-expression replacements are embedded as character-list
scanners implementing exactly the patterns appearing in the sources.
-/

namespace FlutterRelease

/-- A file-system path, as a list of segments (the arguments the scripts pass
to `path.join`). -/
abbrev Path := List String

/-- An abstract file system: an association of paths to file contents.
Keys are kept unique by construction (`write` erases the old entry). -/
abbrev FS := List (Path × String)

/-- First-match lookup, the contents of the file at `p` (if any). -/
def FS.lookup : FS → Path → Option String
  | [], _ => none
  | e :: rest, p => if e.1 = p then some e.2 else FS.lookup rest p

/-- `fs.existsSync` on a file path. -/
def FS.existsFile (fs : FS) (p : Path) : Bool :=
  (fs.lookup p).isSome

/-- `fs.existsSync` / `fs.pathExists` on a directory path: some file lives at
or below it. -/
def FS.existsDir : FS → Path → Bool
  | [], _ => false
  | e :: rest, d => d.isPrefixOf e.1 || FS.existsDir rest d

/-- Remove the file at exactly `p` (all occurrences). -/
def FS.removeFile : FS → Path → FS
  | [], _ => []
  | e :: rest, p => if e.1 = p then FS.removeFile rest p else e :: FS.removeFile rest p

/-- `fs.removeSync` / `fs.remove` on a directory: drop every file at or below
`d`. -/
def FS.removeDir : FS → Path → FS
  | [], _ => []
  | e :: rest, d => if d.isPrefixOf e.1 then FS.removeDir rest d else e :: FS.removeDir rest d

/-- `fs.writeFileSync` / `fs.copyFileSync` destination: (over)write the file
at `p`. -/
def FS.write (fs : FS) (p : Path) (c : String) : FS :=
  (p, c) :: fs.removeFile p

/-- The entries living at or below `d`, keyed by their path relative to `d`. -/
def FS.entriesUnder : FS → Path → List (Path × String)
  | [], _ => []
  | e :: rest, d =>
    if d.isPrefixOf e.1 then (e.1.drop d.length, e.2) :: FS.entriesUnder rest d
    else FS.entriesUnder rest d

/-- `fs.copySync` / `fs.copy` of a directory tree: every file at or below
`src` is written at the corresponding path below `dest`. -/
def FS.copyDir (fs : FS) (src dest : Path) : FS :=
  (fs.entriesUnder src).foldl (fun acc e => acc.write (dest ++ e.1) e.2) fs

/-! ## JavaScript regular-expression replacement, embedded

The scripts use a handful of `String.prototype.replace` calls with fixed
patterns.  Each pattern is of one of three shapes, embedded below as scanners
over `List Char`:

* `lit[^c]{min,}suffix` — a literal, a run of characters excluding a stop
  character, and a literal suffix (`package="[^"]+"`,
  `android:label="[^"]+"`, `applicationId "[^"]+"`,
  `const int OFFLINE_CATEGORY_ID = [^;]*;`, `const String API_URL = '[^']*';`,
  `const String ANDROID_PRODUCT_ID = '[^']*';`);
* `package .+;` — greedy dot, which in JavaScript matches any character
  except line terminators, so the match runs to the *last* `;` on the line;
* `version:\s*([0-9.]+)\+([0-9]+)`.

JavaScript `replace` with a non-global pattern replaces the leftmost match
only; with no match it returns the string unchanged. -/

/-- Match at the head of `s`: literal `lit`, then a run of ≥ `minLen`
characters satisfying `keep`, then literal `suffix`.  Returns the total match
length.  Faithful to the JS classes used here because every `keep` excludes
the first character of `suffix`, so greediness needs no backtracking. -/
def matchLitRunLit (lit : List Char) (keep : Char → Bool) (minLen : Nat)
    (suffix : List Char) (s : List Char) : Option Nat :=
  if lit.isPrefixOf s then
    let rest := s.drop lit.length
    let grp := rest.takeWhile keep
    if minLen ≤ grp.length && suffix.isPrefixOf (rest.drop grp.length) then
      some (lit.length + grp.length + suffix.length)
    else none
  else none

/-- Leftmost-match replacement driven by a head-matcher: JS
`String.prototype.replace` with a non-global regex. -/
def scanReplace (matchAt : List Char → Option Nat) (repl : List Char) :
    List Char → List Char
  | [] => []
  | c :: rest =>
    match matchAt (c :: rest) with
    | some len => repl ++ (c :: rest).drop len
    | none => c :: scanReplace matchAt repl rest

/-- Leftmost match of `lit` followed by a nonempty run of non-quote
characters and a closing `"`; returns the captured group.  This embeds
`str.match(/package="([^"]+)"/)` group 1. -/
def scanCaptureQuoted (lit : List Char) : List Char → Option (List Char)
  | [] => none
  | c :: rest =>
    if lit.isPrefixOf (c :: rest) then
      let r := (c :: rest).drop lit.length
      let grp := r.takeWhile (fun ch => ch ≠ '"')
      if 1 ≤ grp.length && ['"'].isPrefixOf (r.drop grp.length) then some grp
      else scanCaptureQuoted lit rest
    else scanCaptureQuoted lit rest

/-- JS `.` (no `s` flag): any character except a line terminator. -/
def notLineTerm (c : Char) : Bool := c ≠ '\n' && c ≠ '\r'

/-- Match of `/package .+;/` at the head of `s`: literal `package `, then a
greedy run of non-newline characters ending at the last `;` on the line. -/
def matchPackageDeclAt (s : List Char) : Option Nat :=
  if ("package ".data).isPrefixOf s then
    let rest := s.drop 8
    let line := rest.takeWhile notLineTerm
    match ((List.range line.length).filter
        (fun k => decide (line.get? k = some ';' ∧ 1 ≤ k))).getLast? with
    | some k => some (8 + k + 1)
    | none => none
  else none

/-- JS `\s` for the whitespace appearing in these files. -/
def isJsSpace (c : Char) : Bool := c = ' ' || c = '\t' || c = '\n' || c = '\r'

/-- Match of `/version:\s*([0-9.]+)\+([0-9]+)/` at the head of `s`. -/
def matchVersionAt (s : List Char) : Option Nat :=
  if ("version:".data).isPrefixOf s then
    let r1 := s.drop 8
    let ws := r1.takeWhile isJsSpace
    let r2 := r1.drop ws.length
    let nm := r2.takeWhile (fun c => c.isDigit || c = '.')
    let r3 := r2.drop nm.length
    if 1 ≤ nm.length && ['+'].isPrefixOf r3 then
      let r4 := r3.drop 1
      let code := r4.takeWhile Char.isDigit
      if 1 ≤ code.length then some (8 + ws.length + nm.length + 1 + code.length)
      else none
    else none
  else none

/-- String-level wrapper for replacement. -/
def replaceOnce (matchAt : List Char → Option Nat) (repl : String) (s : String) : String :=
  ⟨scanReplace matchAt repl.data s.data⟩

/-! ## Bundle-name handling (`convertBundleNameToFolderName`, `promptUser`
validation) -/

/-- `convertBundleNameToFolderName` from all scripts:
`bundleName.replace(/\./g, '_')`. -/
def convertBundleNameToFolderName (bundleName : String) : String :=
  ⟨bundleName.data.map (fun c => if c = '.' then '_' else c)⟩

/-- ASCII-alphanumeric, the `[a-zA-Z0-9]` class of the `promptUser`
validator. -/
def isAlnumAscii (c : Char) : Bool :=
  ('a' ≤ c && c ≤ 'z') || ('A' ≤ c && c ≤ 'Z') || ('0' ≤ c && c ≤ '9')

/-- The automaton of the bundle-id pattern
`^[a-zA-Z0-9]+(\.[a-zA-Z0-9]+)+$`.  `needAlnum` is true at the start of the
string and right after a `.` (where only an alphanumeric character may
follow and the input may not end); `seenDot` records whether a `.` has been
consumed (the pattern requires at least two segments). -/
def bundleAuto : Bool → Bool → List Char → Bool
  | needAlnum, seenDot, [] => !needAlnum && seenDot
  | needAlnum, seenDot, c :: rest =>
    if c = '.' then !needAlnum && bundleAuto true true rest
    else isAlnumAscii c && bundleAuto false seenDot rest

/-- `promptUser`'s bundle-id validation:
`/^[a-zA-Z0-9]+(\.[a-zA-Z0-9]+)+$/.test(input)`. -/
def isValidBundleId (s : String) : Bool :=
  bundleAuto true false s.data

/-- Accumulator pass of `splitOnDot`. -/
def splitOnDotAux : List Char → List Char → List String
  | acc, [] => [⟨acc.reverse⟩]
  | acc, c :: rest =>
    if c = '.' then (⟨acc.reverse⟩ : String) :: splitOnDotAux [] rest
    else splitOnDotAux (c :: acc) rest

/-- JS `bundleName.split('.')`, the segments fed to `path.join`. -/
def splitOnDot (s : String) : List String :=
  splitOnDotAux [] s.data

/-! ## Paths and constants

`__dirname` (the tool's own directory) is the root of the modelled file
system, so `path.join(__dirname, 'shippable')` is the segment list
`["shippable"]`, the cached keystore `my-release-key.jks` lives at
`["my-release-key.jks"]`, and so on. -/

def outputDirSegs : Path := ["shippable"]

def keystoreFileName : String := "my-release-key.jks"

def manifestRelPath : Path := ["android", "app", "src", "main", "AndroidManifest.xml"]

def gradleRelPath : Path := ["android", "app", "build.gradle"]

def kotlinRelPath : Path := ["android", "app", "src", "main", "kotlin"]

inductive BuildMode
  | Debug
  | Release
deriving DecidableEq, Repr

/-- `fs-extra`'s `moveSync` by its documented contract: fails if the source
is missing, if source and destination are identical, if the destination
would nest inside the source, or (without `overwrite`) if the destination
already exists; otherwise the file is moved. -/
def moveSync (fs : FS) (src dest : Path) : Except String FS :=
  match fs.lookup src with
  | none => .error "ENOENT: no such file or directory"
  | some c =>
    if src = dest then .error "Source and destination must not be the same."
    else if src.isPrefixOf dest then
      .error "Cannot move a path to a subdirectory of itself."
    else if fs.existsFile dest then .error "dest already exists."
    else .ok ((fs.removeFile src).write dest c)

/-! ## Identity Rewriter for Android (`updateAndroidFiles`, android.js) -/

def pkgAttrLit : List Char := "package=\"".data

def labelAttrLit : List Char := "android:label=\"".data

def appIdLit : List Char := "applicationId \"".data

/-- `updateAndroidFiles(bundleName, appName, projectDir)` from android.js:
read the old package name out of `AndroidManifest.xml`, substitute the new
bundle name and label in the manifest, substitute the `applicationId` in
`build.gradle`, ensure the new package directory, move `MainActivity.kt`
(preferred) or `MainActivity.java` from the old package path to the new one,
and rewrite the `package ...;` declaration inside the moved file. -/
def updateAndroidFiles (bundleName appName : String) (projectDir : Path) (fs : FS) :
    Except String FS :=
  let androidManifestPath := projectDir ++ manifestRelPath
  let buildGradlePath := projectDir ++ gradleRelPath
  let kotlinPath := projectDir ++ kotlinRelPath
  match fs.lookup androidManifestPath with
  | none => .error "ENOENT: AndroidManifest.xml"
  | some androidManifest =>
    match scanCaptureQuoted pkgAttrLit androidManifest.data with
    | none => .error "Could not find the package name in AndroidManifest.xml"
    | some oldGrp =>
      let oldPackageName : String := ⟨oldGrp⟩
      let oldPackagePath := kotlinPath ++ splitOnDot oldPackageName
      let m1 := replaceOnce (matchLitRunLit pkgAttrLit (fun c => c ≠ '"') 1 ['"'])
          ("package=\"" ++ bundleName ++ "\"") androidManifest
      let m2 := replaceOnce (matchLitRunLit labelAttrLit (fun c => c ≠ '"') 1 ['"'])
          ("android:label=\"" ++ appName ++ "\"") m1
      let fsA := fs.write androidManifestPath m2
      match fsA.lookup buildGradlePath with
      | none => .error "ENOENT: build.gradle"
      | some buildGradle =>
        let g1 := replaceOnce (matchLitRunLit appIdLit (fun c => c ≠ '"') 1 ['"'])
            ("applicationId \"" ++ bundleName ++ "\"") buildGradle
        let fsB := fsA.write buildGradlePath g1
        let newPackagePath := kotlinPath ++ splitOnDot bundleName
        -- fs.ensureDirSync(newPackagePath): directories are implicit here
        let mainActivityFile :=
          if fsB.existsFile (oldPackagePath ++ ["MainActivity.kt"]) then "MainActivity.kt"
          else "MainActivity.java"
        match moveSync fsB (oldPackagePath ++ [mainActivityFile])
            (newPackagePath ++ [mainActivityFile]) with
        | .error e => .error e
        | .ok fsC =>
          let mainActivityPath := newPackagePath ++ [mainActivityFile]
          match fsC.lookup mainActivityPath with
          | none => .error "ENOENT: MainActivity"
          | some content =>
            let c1 := replaceOnce matchPackageDeclAt
                ("package " ++ bundleName ++ ";") content
            .ok (fsC.write mainActivityPath c1)

/-! ## Config and version stamping (android.js) -/

/-- `updateConfigFiles(offlineCategoryId, apiUrl, androidProductId,
projectDir)` from android.js: three pattern substitutions in
`lib/config.dart`. -/
def updateConfigFiles (offlineCategoryId apiUrl androidProductId : String)
    (projectDir : Path) (fs : FS) : Except String FS :=
  let configFilePath := projectDir ++ ["lib", "config.dart"]
  match fs.lookup configFilePath with
  | none => .error "ENOENT: lib/config.dart"
  | some configContent =>
    let c1 := replaceOnce
        (matchLitRunLit "const int OFFLINE_CATEGORY_ID = ".data (fun c => c ≠ ';') 0 [';'])
        ("const int OFFLINE_CATEGORY_ID = " ++ offlineCategoryId ++ ";") configContent
    let c2 := replaceOnce
        (matchLitRunLit "const String API_URL = \x27".data (fun c => c ≠ '\x27') 0 "\x27;".data)
        ("const String API_URL = \x27" ++ apiUrl ++ "\x27;") c1
    let c3 := replaceOnce
        (matchLitRunLit "const String ANDROID_PRODUCT_ID = \x27".data (fun c => c ≠ '\x27') 0 "\x27;".data)
        ("const String ANDROID_PRODUCT_ID = \x27" ++ androidProductId ++ "\x27;") c2
    .ok (fs.write configFilePath c3)

/-- `updatePubspecVersion(versionName, versionCode, projectDir)` from
android.js: rewrite the `version: X.Y.Z+N` line of `pubspec.yaml`. -/
def updatePubspecVersion (versionName versionCode : String) (projectDir : Path)
    (fs : FS) : Except String FS :=
  let pubspecPath := projectDir ++ ["pubspec.yaml"]
  match fs.lookup pubspecPath with
  | none => .error "ENOENT: pubspec.yaml"
  | some pubspecContent =>
    .ok (fs.write pubspecPath
      (replaceOnce matchVersionAt
        ("version: " ++ versionName ++ "+" ++ versionCode) pubspecContent))

/-! ## Asset Updater (`updateAppIcon`, android.js)

`sharp(icon).resize(n, n).toFile(dest)` is treated as an external pure
function `resize : String → Nat → Except String String` from the source
image and the target dimension to the resized image (or a failure).
`Promise.all(targets.map(...))` starts every task before awaiting any, so
every resize is attempted; the combined promise rejects with the first
rejection and drops the others. -/

def iconSourcePath : Path := ["icon.png"]

def androidTargets : List (Nat × String) :=
  [(48, "mipmap-mdpi"), (72, "mipmap-hdpi"), (96, "mipmap-xhdpi"),
   (144, "mipmap-xxhdpi"), (192, "mipmap-xxxhdpi")]

def iconDest (projectDir : Path) (dir : String) : Path :=
  projectDir ++ ["android", "app", "src", "main", "res", dir, "ic_launcher.png"]

def updateAppIcon (resize : String → Nat → Except String String)
    (projectDir : Path) (fs : FS) : FS × Except String Unit :=
  match fs.lookup iconSourcePath with
  | none => (fs, .ok ())
  | some icon =>
    let folded := androidTargets.foldl
      (fun acc t =>
        match resize icon t.1 with
        | .ok out => (acc.1.write (iconDest projectDir t.2) out, acc.2)
        | .error e => (acc.1, acc.2 ++ [e]))
      (fs, ([] : List String))
    (folded.1,
      match folded.2 with
      | [] => .ok ()
      | e :: _ => .error e)

/-- The per-target resize failures of an icon-update run, in table order. -/
def resizeFailures (resize : String → Nat → Except String String) (icon : String)
    (targets : List (Nat × String)) : List String :=
  targets.filterMap (fun t =>
    match resize icon t.1 with
    | .error e => some e
    | .ok _ => none)

/-! ## Credential Store (`generateKeystore`, android.js) -/

structure KeystoreDetails where
  keyAlias : String
  keyPassword : String
  validity : String
  name : String
  organizationUnit : String
  organization : String
  city : String
  state : String
  countryCode : String

def defaultKeystorePath : Path := [keystoreFileName]

def defaultKeyPropertiesPath : Path := ["key.properties"]

/-- The `key.properties` content written on the generation path.  The
source's template literal keeps eight spaces of indentation on the inner
lines; `.trim()` only strips the ends. -/
def keystoreConfig (d : KeystoreDetails) : String :=
  "storePassword=" ++ d.keyPassword ++
  "\n        keyPassword=" ++ d.keyPassword ++
  "\n        keyAlias=" ++ d.keyAlias ++
  "\n        storeFile=../" ++ keystoreFileName

structure GenResult where
  fs : FS
  spawned : List String
  prompts : Nat
  result : Except String Unit

/-- `generateKeystore(projectDir)` from android.js.  If the cached keystore
exists: copy it and the cached `key.properties` into the working copy's
`android/` directory (a missing source in `fs.copyFile` only logs in the
callback), prompting for nothing and spawning nothing.  Otherwise: prompt
for the credential details, write `key.properties` into the working copy,
and run `keytool -genkeypair`, which on success writes the keystore at the
cache path, whence it is copied into the working copy. -/
def generateKeystore (details : KeystoreDetails) (keytoolExit : Nat)
    (keytoolOutput : String) (projectDir : Path) (fs : FS) : GenResult :=
  let keystorePath := projectDir ++ ["android", keystoreFileName]
  let keyPropertiesPath := projectDir ++ ["android", "key.properties"]
  if fs.existsFile defaultKeystorePath then
    let fs1 := match fs.lookup defaultKeystorePath with
      | some c => fs.write keystorePath c
      | none => fs
    let fs2 := match fs1.lookup defaultKeyPropertiesPath with
      | some c => fs1.write keyPropertiesPath c
      | none => fs1
    ⟨fs2, [], 0, .ok ()⟩
  else
    let fs1 := fs.write keyPropertiesPath (keystoreConfig details)
    if keytoolExit = 0 then
      let fs2 := fs1.write defaultKeystorePath keytoolOutput
      let fs3 := match fs2.lookup defaultKeystorePath with
        | some c => fs2.write keystorePath c
        | none => fs2
      ⟨fs3, ["keytool -genkeypair"], 1, .ok ()⟩
    else
      ⟨fs1, ["keytool -genkeypair"], 1, .error "Error generating keystore"⟩

/-! ## Build Orchestrator (`buildApp`, android.js) -/

/-- Shell `&&`-chain semantics for the joined build command: each command
runs only if the previous one exited 0; the chain's exit code is the code of
the last command that ran.  Returns the commands actually run and the
chain's exit code. -/
def runAnd (behavior : String → Nat) : List String → List String × Nat
  | [] => ([], 0)
  | c :: rest =>
    if behavior c = 0 then
      let r := runAnd behavior rest
      (c :: r.1, r.2)
    else ([c], behavior c)

def buildCommands : BuildMode → List String
  | .Release => ["flutter build apk --release", "flutter build appbundle --release"]
  | .Debug => ["flutter build apk --debug"]

structure BuildOutcome where
  spawned : List String
  result : Except String Unit

/-- `buildApp(projectDir, buildMode)` from android.js: one `exec` of the
`&&`-joined command list; on non-zero exit the promise rejects with the
fixed message `Flutter build process exited with errors.` (the exit code is
not part of the rejection). -/
def buildApp (buildMode : BuildMode) (behavior : String → Nat) : BuildOutcome :=
  let r := runAnd behavior (buildCommands buildMode)
  ⟨r.1, if r.2 = 0 then .ok () else .error "Flutter build process exited with errors."⟩

/-! ## Artifact Collectors -/

/-- `copyToShippableFolder(projectDir, folderName, buildMode)` from
android.js: `ensureDirSync` the output folder (no removal of pre-existing
contents), then copy whichever conventional build outputs exist. -/
def copyToShippableFolder (projectDir : Path) (folderName : String)
    (buildMode : BuildMode) (fs : FS) : FS :=
  let shippableAppDir := outputDirSegs ++ [folderName]
  match buildMode with
  | .Release =>
    let androidApkPath :=
      projectDir ++ ["build", "app", "outputs", "apk", "release", "app-release.apk"]
    let fs1 := match fs.lookup androidApkPath with
      | some c => fs.write (shippableAppDir ++ ["app-release.apk"]) c
      | none => fs
    let androidAabPath :=
      projectDir ++ ["build", "app", "outputs", "bundle", "release", "app-release.aab"]
    match fs1.lookup androidAabPath with
    | some c => fs1.write (shippableAppDir ++ ["app-release.aab"]) c
    | none => fs1
  | .Debug =>
    let androidApkPath :=
      projectDir ++ ["build", "app", "outputs", "apk", "debug", "app-debug.apk"]
    match fs.lookup androidApkPath with
    | some c => fs.write (shippableAppDir ++ ["app-debug.apk"]) c
    | none => fs

/-- `copyToShippableFolder(projectDir, folderName)` from `part_000`: remove
the existing output folder if present, recreate it, then copy the release
APK (if present) and the iOS build folder (if present). -/
def copyToShippableFolder_p000 (projectDir : Path) (folderName : String) (fs : FS) : FS :=
  let shippableAppDir := outputDirSegs ++ [folderName]
  let fs1 := if fs.existsDir shippableAppDir then fs.removeDir shippableAppDir else fs
  let androidApkPath :=
    projectDir ++ ["build", "app", "outputs", "apk", "release", "app-release.apk"]
  let iosAppPath := projectDir ++ ["build", "ios", "iphoneos"]
  let fs2 := match fs1.lookup androidApkPath with
    | some c => fs1.write (shippableAppDir ++ ["app-release.apk"]) c
    | none => fs1
  if fs2.existsDir iosAppPath then fs2.copyDir iosAppPath (shippableAppDir ++ ["ios"])
  else fs2

/-! ## Project Materializer -/

/-- `prepareDirectory(folderPath)` from android.js and ios.js: if the
destination exists, prompt for confirmation; on accept remove it
recursively, on decline throw `Operation cancelled by user.` without
touching anything. -/
def prepareDirectory (confirmDelete : Bool) (folderPath : Path) (fs : FS) :
    FS × Except String Unit :=
  if fs.existsDir folderPath then
    if confirmDelete then (fs.removeDir folderPath, .ok ())
    else (fs, .error "Operation cancelled by user.")
  else (fs, .ok ())

/-- `copyProject(flutterAppFolderPath, bundleName)` from android.js:
prepare the destination directory (may prompt), then copy the whole
project. -/
def copyProject (confirmDelete : Bool) (flutterAppFolderPath : Path)
    (bundleName : String) (fs : FS) : FS × Except String Path :=
  let folderName := convertBundleNameToFolderName bundleName
  let appDir := outputDirSegs ++ [folderName]
  match prepareDirectory confirmDelete appDir fs with
  | (fs1, .error e) => (fs1, .error e)
  | (fs1, .ok _) => (fs1.copyDir flutterAppFolderPath appDir, .ok appDir)

/-- Render a segment path the way `path.join` renders it, for the
string-level `startsWith` comparison in `part_000`'s `copyProject`. -/
def flatten : List String → List Char
  | [] => []
  | s :: rest =>
    match rest with
    | [] => s.data
    | _ :: _ => s.data ++ '/' :: flatten rest

/-- `copyProject(flutterAppFolderPath, bundleName)` from `part_000`: resolve
both paths, refuse with the self-nesting error when the resolved destination
string starts with the resolved source string, otherwise `copySync`. -/
def copyProject_p000 (flutterAppFolderPath : Path) (bundleName : String) (fs : FS) :
    FS × Except String Path :=
  let folderName := convertBundleNameToFolderName bundleName
  let appDir := outputDirSegs ++ [folderName]
  let resolvedSrc := flutterAppFolderPath
  let resolvedDest := appDir
  if (flatten resolvedSrc).isPrefixOf (flatten resolvedDest) then
    (fs, .error ("Cannot copy \x27" ++ (⟨flatten resolvedSrc⟩ : String) ++
      "\x27 to a subdirectory of itself, \x27" ++
      (⟨flatten resolvedDest⟩ : String) ++ "\x27."))
  else
    (fs.copyDir resolvedSrc resolvedDest, .ok appDir)

/-! ## The android.js `main` pipeline -/

structure Env where
  buildMode : BuildMode
  flutterAppPath : Path
  bundleName : String
  appName : String
  offlineCategoryId : String
  apiUrl : String
  androidProductId : String
  versionName : String
  versionCode : String
  confirmDelete : Bool
  keytoolInstalled : Bool
  keystoreDetails : KeystoreDetails
  keytoolExit : Nat
  keytoolOutput : String
  resize : String → Nat → Except String String
  exitCode : String → Nat

inductive MainResult
  | ok
  | caught (msg : String)
  | exited (code : Nat) (msg : String)
deriving DecidableEq, Repr

structure MainOut where
  fs : FS
  spawned : List String
  result : MainResult

/-- `main()` from android.js.  `spawned` records every `exec`'d external
command in order (`keytool -help` from `checkKeytoolInstalled`,
`keytool -genkeypair` from keystore generation, and the flutter build
commands); thrown errors are caught by the surrounding try/catch
(`.caught`), while `process.exit(1)` bypasses it (`.exited`). -/
def main_android (env : Env) (fs0 : FS) : MainOut :=
  match copyProject env.confirmDelete env.flutterAppPath env.bundleName fs0 with
  | (fs1, .error e) => ⟨fs1, [], .caught e⟩
  | (fs1, .ok projectDir) =>
    match updateAppIcon env.resize projectDir fs1 with
    | (fs2, .error e) => ⟨fs2, [], .caught e⟩
    | (fs2, .ok _) =>
      match updateAndroidFiles env.bundleName env.appName projectDir fs2 with
      | .error e => ⟨fs2, [], .caught e⟩
      | .ok fs3 =>
        match updateConfigFiles env.offlineCategoryId env.apiUrl
            env.androidProductId projectDir fs3 with
        | .error e => ⟨fs3, [], .caught e⟩
        | .ok fs4 =>
          match env.buildMode with
          | .Release =>
            match updatePubspecVersion env.versionName env.versionCode projectDir fs4 with
            | .error e => ⟨fs4, [], .caught e⟩
            | .ok fs5 =>
              if env.keytoolInstalled then
                let g := generateKeystore env.keystoreDetails env.keytoolExit
                    env.keytoolOutput projectDir fs5
                match g.result with
                | .error e => ⟨g.fs, "keytool -help" :: g.spawned, .caught e⟩
                | .ok _ =>
                  let b := buildApp .Release env.exitCode
                  match b.result with
                  | .error e =>
                    ⟨g.fs, ("keytool -help" :: g.spawned) ++ b.spawned, .caught e⟩
                  | .ok _ =>
                    let folderName := convertBundleNameToFolderName env.bundleName
                    ⟨copyToShippableFolder projectDir folderName .Release g.fs,
                      ("keytool -help" :: g.spawned) ++ b.spawned, .ok⟩
              else
                ⟨fs5, ["keytool -help"],
                  .exited 1 "Error: keytool is not installed on your system."⟩
          | .Debug =>
            let b := buildApp .Debug env.exitCode
            match b.result with
            | .error e => ⟨fs4, b.spawned, .caught e⟩
            | .ok _ =>
              let folderName := convertBundleNameToFolderName env.bundleName
              ⟨copyToShippableFolder projectDir folderName .Debug fs4, b.spawned, .ok⟩

/-! ## Concrete fixtures used by witnesses -/

/-- A minimal concrete Flutter template project (Kotlin entry file, no
custom icon). -/
def templateFS : FS :=
  [ (["prep", "android", "app", "src", "main", "AndroidManifest.xml"],
     "<manifest package=\"com.old.prep\" android:label=\"Old\">"),
    (["prep", "android", "app", "build.gradle"],
     "applicationId \"com.old.prep\""),
    (["prep", "android", "app", "src", "main", "kotlin", "com", "old", "prep",
      "MainActivity.kt"],
     "package com.old.prep\nclass MainActivity : FlutterActivity()\n"),
    (["prep", "lib", "config.dart"],
     "const int OFFLINE_CATEGORY_ID = 1;\nconst String API_URL = \x27x\x27;\nconst String ANDROID_PRODUCT_ID = \x27y\x27;\n"),
    (["prep", "pubspec.yaml"], "name: prep\nversion: 1.0.0+1\n") ]

/-- A concrete run environment: Release mode with the key-generation tool
unavailable on the host. -/
def envRelNoKeytool : Env :=
  { buildMode := .Release
    flutterAppPath := ["prep"]
    bundleName := "com.acme.app"
    appName := "Acme"
    offlineCategoryId := "7"
    apiUrl := "https://api.acme.example"
    androidProductId := "com.acme.app.premium"
    versionName := "2.0.0"
    versionCode := "99"
    confirmDelete := true
    keytoolInstalled := false
    keystoreDetails := ⟨"ccp", "secret123", "10000", "A B", "omix", "omix",
      "Vancouver", "BC", "CA"⟩
    keytoolExit := 0
    keytoolOutput := "KSBYTES"
    resize := fun img _ => .ok img
    exitCode := fun _ => 0 }

/-! ## Basic file-system lemmas -/

theorem FS.lookup_write_self (fs : FS) (p : Path) (c : String) :
    (fs.write p c).lookup p = some c := by
  simp [FS.write, FS.lookup]

theorem FS.lookup_removeFile_ne (fs : FS) {p q : Path} (h : p ≠ q) :
    (fs.removeFile q).lookup p = fs.lookup p := by
  induction fs with
  | nil => rfl
  | cons e rest ih =>
    simp only [FS.removeFile]
    by_cases he : e.1 = q
    · have hne : e.1 ≠ p := fun hp => h (hp.symm.trans he)
      rw [if_pos he, ih]
      simp [FS.lookup, hne]
    · simp only [if_neg he, FS.lookup]
      by_cases hp : e.1 = p
      · rw [if_pos hp, if_pos hp]
      · rw [if_neg hp, if_neg hp, ih]

theorem FS.lookup_write_ne (fs : FS) {p q : Path} (c : String) (h : p ≠ q) :
    (fs.write q c).lookup p = fs.lookup p := by
  have hq : q ≠ p := fun hqp => h hqp.symm
  simp [FS.write, FS.lookup, hq, FS.lookup_removeFile_ne fs h]

theorem FS.existsFile_write_ne (fs : FS) {p q : Path} (c : String) (h : p ≠ q) :
    (fs.write q c).existsFile p = fs.existsFile p := by
  simp [FS.existsFile, FS.lookup_write_ne fs c h]

theorem FS.lookup_removeDir (fs : FS) {d p : Path} (h : d.isPrefixOf p = true) :
    (fs.removeDir d).lookup p = none := by
  induction fs with
  | nil => rfl
  | cons e rest ih =>
    by_cases he : d.isPrefixOf e.1
    · simp [FS.removeDir, he, ih]
    · have hne : e.1 ≠ p := by
        intro hp
        exact he (hp ▸ h)
      simp [FS.removeDir, FS.lookup, he, hne, ih]

theorem FS.lookup_of_not_existsDir (fs : FS) {d p : Path}
    (hd : fs.existsDir d = false) (h : d.isPrefixOf p = true) :
    fs.lookup p = none := by
  induction fs with
  | nil => rfl
  | cons e rest ih =>
    simp only [FS.existsDir, Bool.or_eq_false_iff] at hd
    have hne : e.1 ≠ p := by
      intro hp
      rw [hp] at hd
      exact absurd h (by simp [hd.1])
    simp [FS.lookup, hne, ih hd.2]

theorem FS.foldl_write_lookup (l : List (Path × String)) (dest : Path) {p : Path}
    (h : ∀ e ∈ l, dest ++ e.1 ≠ p) (fs : FS) :
    (l.foldl (fun acc e => acc.write (dest ++ e.1) e.2) fs).lookup p = fs.lookup p := by
  induction l generalizing fs with
  | nil => rfl
  | cons e rest ih =>
    have h1 : dest ++ e.1 ≠ p := h e (by simp)
    have h2 : ∀ e' ∈ rest, dest ++ e'.1 ≠ p := fun e' he' => h e' (by simp [he'])
    simp only [List.foldl_cons]
    rw [ih h2, FS.lookup_write_ne _ _ (fun hp => h1 hp.symm)]

theorem FS.copyDir_lookup_not_under (fs : FS) (src : Path) {dest p : Path}
    (h : dest.isPrefixOf p = false) :
    (fs.copyDir src dest).lookup p = fs.lookup p := by
  apply FS.foldl_write_lookup
  intro e _ hp
  have : dest.isPrefixOf p = true := by
    rw [← hp]
    have : dest <+: dest ++ e.1 := ⟨e.1, rfl⟩
    exact List.isPrefixOf_iff_prefix.mpr this
  simp [this] at h

/-! ## Bundle-identifier conversion (claim C9) -/

theorem bundleAuto_chars : ∀ (l : List Char) (na sd : Bool),
    bundleAuto na sd l = true → ∀ c ∈ l, isAlnumAscii c = true ∨ c = '.'
  | [], _, _, _, _, hc => by cases hc
  | a :: rest, na, sd, h, c, hc => by
    have h' : (if a = '.' then !na && bundleAuto true true rest
        else isAlnumAscii a && bundleAuto false sd rest) = true := h
    by_cases hdot : a = '.'
    · rw [if_pos hdot, Bool.and_eq_true] at h'
      rcases List.mem_cons.mp hc with hceq | hcrest
      · exact Or.inr (hceq.trans hdot)
      · exact bundleAuto_chars rest true true h'.2 c hcrest
    · rw [if_neg hdot, Bool.and_eq_true] at h'
      rcases List.mem_cons.mp hc with hceq | hcrest
      · exact Or.inl (hceq ▸ h'.1)
      · exact bundleAuto_chars rest false sd h'.2 c hcrest

theorem isValidBundleId_chars {s : String} (h : isValidBundleId s = true) :
    ∀ c ∈ s.data, isAlnumAscii c = true ∨ c = '.' :=
  bundleAuto_chars s.data true false h

theorem isValidBundleId_no_underscore {s : String} (h : isValidBundleId s = true) :
    ∀ c ∈ s.data, c ≠ '_' := by
  intro c hc hu
  rcases isValidBundleId_chars h c hc with ha | hd
  · rw [hu] at ha
    exact absurd ha (by decide)
  · rw [hu] at hd
    exact absurd hd (by decide)

/-- C9: the dot-to-underscore mapping is undone, character by character, on
strings free of underscores. -/
theorem dot_underscore_roundTrip {l : List Char} (h : ∀ c ∈ l, c ≠ '_') :
    (l.map (fun c => if c = '.' then '_' else c)).map
      (fun c => if c = '_' then '.' else c) = l := by
  rw [List.map_map]
  have : ∀ c ∈ l, ((fun c => if c = '_' then '.' else c) ∘
      fun c => if c = '.' then '_' else c) c = id c := by
    intro c hc
    by_cases hdot : c = '.'
    · simp [Function.comp, hdot]
    · simp [Function.comp, hdot, h c hc]
  rw [List.map_congr_left this, List.map_id]

/-- C9: for bundle identifiers accepted by the `promptUser` validator,
`convertBundleNameToFolderName` keeps the length, sends `.` to `_` and every
other character to itself, and is injective: two valid identifiers that
differ anywhere map to different folder names. -/
theorem convertBundleName_dots_and_injective (b1 b2 : String)
    (h1 : isValidBundleId b1 = true) (h2 : isValidBundleId b2 = true) :
    (convertBundleNameToFolderName b1).data.length = b1.data.length ∧
    (∀ i c, b1.data.get? i = some c →
      (convertBundleNameToFolderName b1).data.get? i =
        some (if c = '.' then '_' else c)) ∧
    (convertBundleNameToFolderName b1 = convertBundleNameToFolderName b2 → b1 = b2) := by
  refine ⟨?_, ?_, ?_⟩
  · simp [convertBundleNameToFolderName]
  · intro i c hc
    show (b1.data.map (fun c => if c = '.' then '_' else c)).get? i = _
    rw [List.get?_map, hc]
    rfl
  · intro heq
    have hdata : b1.data.map (fun c => if c = '.' then '_' else c) =
        b2.data.map (fun c => if c = '.' then '_' else c) :=
      congrArg String.data heq
    have hback := congrArg (List.map (fun c => if c = '_' then '.' else c)) hdata
    rw [dot_underscore_roundTrip (isValidBundleId_no_underscore h1),
      dot_underscore_roundTrip (isValidBundleId_no_underscore h2)] at hback
    cases b1 with
    | mk d1 =>
      cases b2 with
      | mk d2 => exact congrArg String.mk hback

/-- Witness for C9 at concrete valid identifiers. -/
theorem convertBundleName_dots_and_injective_witness :
    isValidBundleId "com.acme.app" = true ∧
    isValidBundleId "org.acme.app" = true ∧
    (convertBundleNameToFolderName "com.acme.app" =
        convertBundleNameToFolderName "org.acme.app" →
      ("com.acme.app" : String) = "org.acme.app") :=
  ⟨by decide, by decide,
    (convertBundleName_dots_and_injective "com.acme.app" "org.acme.app"
      (by decide) (by decide)).2.2⟩

/-! ## Project Materializer (claims C4 and C7) -/

theorem flatten_cons_ne (s : String) {rest : List String} (h : rest ≠ []) :
    flatten (s :: rest) = s.data ++ '/' :: flatten rest := by
  cases rest with
  | nil => exact absurd rfl h
  | cons a t => rfl

theorem flatten_append_isPrefix : ∀ (src rest : List String), rest ≠ [] →
    flatten src <+: flatten (src ++ rest)
  | [], _, _ => List.nil_prefix
  | [s], rest, h => by
    rw [List.cons_append, List.nil_append, flatten_cons_ne s h]
    exact ⟨'/' :: flatten rest, rfl⟩
  | s :: b :: t, rest, h => by
    rw [List.cons_append,
      flatten_cons_ne s (by simp : (b :: t) ++ rest ≠ []),
      flatten_cons_ne s (by simp : b :: t ≠ [])]
    rcases flatten_append_isPrefix (b :: t) rest h with ⟨tail, htail⟩
    exact ⟨tail, by rw [List.append_assoc, List.cons_append, htail]⟩

/-- C4: whenever the derived destination folder resolves to the source path
itself or to any descendant of it (at any depth), `part_000`'s `copyProject`
fails with the self-nesting error and performs no copy: the file system it
returns is the input one, untouched. -/
theorem copyProject_p000_selfNesting (flutterAppFolderPath : Path)
    (bundleName : String) (fs : FS)
    (h : outputDirSegs ++ [convertBundleNameToFolderName bundleName] =
        flutterAppFolderPath ∨
      ∃ rest, rest ≠ [] ∧
        outputDirSegs ++ [convertBundleNameToFolderName bundleName] =
          flutterAppFolderPath ++ rest) :
    copyProject_p000 flutterAppFolderPath bundleName fs =
      (fs, .error ("Cannot copy \x27" ++
        (⟨flatten flutterAppFolderPath⟩ : String) ++
        "\x27 to a subdirectory of itself, \x27" ++
        (⟨flatten (outputDirSegs ++ [convertBundleNameToFolderName bundleName])⟩ : String) ++
        "\x27.")) := by
  have hpre : (flatten flutterAppFolderPath).isPrefixOf
      (flatten (outputDirSegs ++ [convertBundleNameToFolderName bundleName])) = true := by
    rcases h with heq | ⟨rest, hne, heq⟩
    · rw [heq]
      exact List.isPrefixOf_iff_prefix.mpr (List.prefix_refl _)
    · rw [heq]
      exact List.isPrefixOf_iff_prefix.mpr (flatten_append_isPrefix _ rest hne)
  simp only [copyProject_p000, hpre, if_true]

/-- Witness for C4: copying `shippable` into `shippable/com_acme_app`. -/
theorem copyProject_p000_selfNesting_witness :
    copyProject_p000 ["shippable"] "com.acme.app" [] =
      ([], .error ("Cannot copy \x27" ++ (⟨flatten ["shippable"]⟩ : String) ++
        "\x27 to a subdirectory of itself, \x27" ++
        (⟨flatten (outputDirSegs ++
          [convertBundleNameToFolderName "com.acme.app"])⟩ : String) ++
        "\x27.")) :=
  copyProject_p000_selfNesting ["shippable"] "com.acme.app" []
    (Or.inr ⟨["com_acme_app"], by decide, by decide⟩)

/-- C7: if the derived destination directory already exists and the user
declines the overwrite confirmation, `copyProject` (android.js) fails with
`Operation cancelled by user.` and returns the file system unchanged: the
existing destination is not removed and nothing is copied. -/
theorem copyProject_cancel_leavesFsUnchanged (flutterAppFolderPath : Path)
    (bundleName : String) (fs : FS)
    (h : fs.existsDir (outputDirSegs ++ [convertBundleNameToFolderName bundleName]) = true) :
    copyProject false flutterAppFolderPath bundleName fs =
      (fs, .error "Operation cancelled by user.") := by
  simp only [copyProject, prepareDirectory, h, if_true, Bool.false_eq_true, if_false]

/-- Witness for C7 at a concrete file system holding the destination. -/
theorem copyProject_cancel_leavesFsUnchanged_witness :
    copyProject false ["prep"] "com.acme.app"
        [(["shippable", "com_acme_app", "stale.txt"], "old")] =
      ([(["shippable", "com_acme_app", "stale.txt"], "old")],
        .error "Operation cancelled by user.") :=
  copyProject_cancel_leavesFsUnchanged ["prep"] "com.acme.app" _ (by decide)

/-! ## Build Orchestrator (claim C2) -/

theorem runAnd_failure (behavior : String → Nat) (l : List String) :
    ∀ (k : Nat) (c : String),
      l.get? k = some c →
      (∀ j cj, j < k → l.get? j = some cj → behavior cj = 0) →
      behavior c ≠ 0 →
      runAnd behavior l = (l.take (k + 1), behavior c) := by
  induction l with
  | nil => intro k c hc _ _; cases k <;> simp [List.get?] at hc
  | cons c0 rest ih =>
    intro k c hc hok hfail
    cases k with
    | zero =>
      have hceq : c0 = c := by
        simpa [List.get?] using hc
      subst hceq
      unfold runAnd
      rw [if_neg hfail]
      simp
    | succ k' =>
      have h0 : behavior c0 = 0 := hok 0 c0 (Nat.succ_pos k') rfl
      unfold runAnd
      rw [if_pos h0]
      have ih' := ih k' c hc
        (fun j cj hj hcj => hok (j + 1) cj (Nat.succ_lt_succ hj) hcj) hfail
      rw [ih']
      simp [List.take_succ_cons]

/-- C2 amended: once a command of the `&&`-joined sequence exits non-zero,
the later commands are never run, and the orchestrator rejects — but with
the fixed message `Flutter build process exited with errors.`, which does
not carry the exit code. -/
theorem buildApp_stops_after_failure (buildMode : BuildMode)
    (behavior : String → Nat) (k : Nat) (c : String)
    (hc : (buildCommands buildMode).get? k = some c)
    (hok : ∀ j cj, j < k → (buildCommands buildMode).get? j = some cj → behavior cj = 0)
    (hfail : behavior c ≠ 0) :
    (buildApp buildMode behavior).spawned = (buildCommands buildMode).take (k + 1) ∧
    (buildApp buildMode behavior).result =
      .error "Flutter build process exited with errors." := by
  have hr := runAnd_failure behavior (buildCommands buildMode) k c hc hok hfail
  unfold buildApp
  rw [hr]
  exact ⟨rfl, by simp [hfail]⟩

/-- Witness for the amended C2: in Release mode the first command fails with
exit code 2, and the app-bundle command is never run. -/
theorem buildApp_stops_after_failure_witness :
    (buildApp .Release (fun _ => 2)).spawned = ["flutter build apk --release"] ∧
    (buildApp .Release (fun _ => 2)).result =
      .error "Flutter build process exited with errors." :=
  buildApp_stops_after_failure .Release (fun _ => 2) 0 "flutter build apk --release"
    rfl (fun j _ hj _ => absurd hj (Nat.not_lt_zero j)) (by decide)

/-- C2 counterexample: two Release runs whose only difference is the failing
command's exit code (1 versus 2) produce *identical* orchestrator outcomes,
so the reported failure cannot carry the exit code of the failing command:
the rejection is the fixed message `Flutter build process exited with
errors.`. -/
theorem buildApp_dropsExitCode_cex :
    buildApp .Release (fun _ => 1) = buildApp .Release (fun _ => 2) ∧
    (fun _ : String => (1 : Nat)) "flutter build apk --release" ≠
      (fun _ : String => (2 : Nat)) "flutter build apk --release" :=
  ⟨rfl, by decide⟩

/-! ## Artifact Collector (claim C1) -/

/-- C1 counterexample: the android.js collector does **not** remove
pre-existing output-folder contents.  A stale `app-release.aab` left by an
earlier Release-mode collection of the same identity survives a Release-mode
collection whose build directory holds only a fresh APK. -/
theorem copyToShippableFolder_keepsStale_cex :
    (copyToShippableFolder ["proj"] "com_acme_app" .Release
        [(["shippable", "com_acme_app", "app-release.aab"], "stale-aab"),
         (["proj", "build", "app", "outputs", "apk", "release", "app-release.apk"],
          "fresh-apk")]).lookup
      ["shippable", "com_acme_app", "app-release.aab"] = some "stale-aab" := by
  decide

/-- C1 amended: `part_000`'s collector does give the clean-slate guarantee:
it removes the whole output folder up front, so after collection nothing
lives below the output folder except possibly the release APK it copies and
the copied iOS tree — no pre-existing file survives. -/
theorem copyToShippableFolder_p000_cleanSlate (projectDir : Path)
    (folderName : String) (fs : FS) (p : Path)
    (hp : (outputDirSegs ++ [folderName]).isPrefixOf p = true)
    (hapk : p ≠ outputDirSegs ++ [folderName] ++ ["app-release.apk"])
    (hios : (outputDirSegs ++ [folderName] ++ ["ios"]).isPrefixOf p = false) :
    (copyToShippableFolder_p000 projectDir folderName fs).lookup p = none := by
  simp only [copyToShippableFolder_p000]
  have h1 : (if fs.existsDir (outputDirSegs ++ [folderName]) then
      fs.removeDir (outputDirSegs ++ [folderName]) else fs).lookup p = none := by
    cases hex : fs.existsDir (outputDirSegs ++ [folderName]) with
    | true => simpa [hex] using fs.lookup_removeDir hp
    | false => simpa [hex] using fs.lookup_of_not_existsDir hex hp
  have h2 : ∀ fs1 : FS, fs1.lookup p = none →
      (match fs1.lookup (projectDir ++
          ["build", "app", "outputs", "apk", "release", "app-release.apk"]) with
        | some c => fs1.write (outputDirSegs ++ [folderName] ++ ["app-release.apk"]) c
        | none => fs1).lookup p = none := by
    intro fs1 hnone
    cases hl : fs1.lookup (projectDir ++
        ["build", "app", "outputs", "apk", "release", "app-release.apk"]) with
    | none => simpa using hnone
    | some c =>
      simpa using (fs1.lookup_write_ne c hapk).trans hnone
  have h3 : ∀ fs2 : FS, fs2.lookup p = none →
      (if fs2.existsDir (projectDir ++ ["build", "ios", "iphoneos"]) then
        fs2.copyDir (projectDir ++ ["build", "ios", "iphoneos"])
          (outputDirSegs ++ [folderName] ++ ["ios"])
      else fs2).lookup p = none := by
    intro fs2 hnone
    cases hex : fs2.existsDir (projectDir ++ ["build", "ios", "iphoneos"]) with
    | true => simpa [hex] using (fs2.copyDir_lookup_not_under _ hios).trans hnone
    | false => simpa [hex] using hnone
  exact h3 _ (h2 _ h1)

/-- Witness for the amended C1: a stale file below the output folder is gone
after `part_000`'s collection. -/
theorem copyToShippableFolder_p000_cleanSlate_witness :
    (copyToShippableFolder_p000 ["proj"] "com_acme_app"
        [(["shippable", "com_acme_app", "stale.txt"], "old")]).lookup
      ["shippable", "com_acme_app", "stale.txt"] = none :=
  copyToShippableFolder_p000_cleanSlate ["proj"] "com_acme_app" _ _
    (by decide) (by decide) (by decide)

/-! ## Identity Rewriter (claim C3) -/

/-- C3 (code bug): a Kotlin `MainActivity.kt` declares its package without a
trailing semicolon, so the rewrite regex `/package .+;/` never matches and
`updateAndroidFiles` leaves the OLD package declaration inside the file it
just relocated under the NEW package path: the relocated file still
references the OLD identifier. -/
theorem updateAndroidFiles_kotlinPackageDecl_unchanged :
    (updateAndroidFiles "com.acme.app" "Acme" ["p"]
      [ (["p"] ++ manifestRelPath,
         "<manifest package=\"com.old.prep\" android:label=\"Old\">"),
        (["p"] ++ gradleRelPath, "applicationId \"com.old.prep\""),
        (["p"] ++ kotlinRelPath ++ ["com", "old", "prep", "MainActivity.kt"],
         "package com.old.prep\nclass MainActivity : FlutterActivity()\n") ]).toOption.map
      (fun f => f.lookup
        (["p"] ++ kotlinRelPath ++ ["com", "acme", "app", "MainActivity.kt"])) =
    some (some "package com.old.prep\nclass MainActivity : FlutterActivity()\n") := by
  decide

/-! ## Credential Store (claim C5) -/

/-- C5 counterexample: the generation path persists only the keystore to the
cache, never the secrets file, so a second invocation — which does start
from an existing cached keystore, spawns no key-generation process and
prompts for nothing — places **no** secrets file into the new working copy,
contradicting the claim that both files arrive verbatim. -/
theorem generateKeystore_secondRun_missingSecrets_cex :
    (let g1 := generateKeystore ⟨"ccp", "secret123", "10000", "A B", "omix",
        "omix", "Vancouver", "BC", "CA"⟩ 0 "KSBYTES" ["shippable", "app1"] []
     let g2 := generateKeystore ⟨"ccp", "secret123", "10000", "A B", "omix",
        "omix", "Vancouver", "BC", "CA"⟩ 0 "KSBYTES" ["shippable", "app2"] g1.fs
     g2.spawned = [] ∧ g2.prompts = 0 ∧
       g2.fs.lookup ["shippable", "app2", "android", "my-release-key.jks"] =
         some "KSBYTES" ∧
       g2.fs.lookup ["shippable", "app2", "android", "key.properties"] = none) := by
  decide

/-- C5 amended: whenever the cache holds **both** the keystore and its
secrets file, an invocation spawns no key-generation process, prompts for
nothing, and copies both files byte-for-byte into the working copy's
`android/` directory. -/
theorem generateKeystore_cached_reusesVerbatim (details : KeystoreDetails)
    (keytoolExit : Nat) (keytoolOutput : String) (projectDir : Path) (fs : FS)
    (ks props : String)
    (hks : fs.lookup defaultKeystorePath = some ks)
    (hprops : fs.lookup defaultKeyPropertiesPath = some props) :
    (generateKeystore details keytoolExit keytoolOutput projectDir fs).spawned = [] ∧
    (generateKeystore details keytoolExit keytoolOutput projectDir fs).prompts = 0 ∧
    (generateKeystore details keytoolExit keytoolOutput projectDir fs).fs.lookup
      (projectDir ++ ["android", keystoreFileName]) = some ks ∧
    (generateKeystore details keytoolExit keytoolOutput projectDir fs).fs.lookup
      (projectDir ++ ["android", "key.properties"]) = some props := by
  have hex : fs.existsFile defaultKeystorePath = true := by
    simp [FS.existsFile, hks]
  have hne1 : defaultKeyPropertiesPath ≠ projectDir ++ ["android", keystoreFileName] := by
    intro h
    have hlen := congrArg List.length h
    simp [defaultKeyPropertiesPath] at hlen
  have hne2 : projectDir ++ ["android", keystoreFileName] ≠
      projectDir ++ ["android", "key.properties"] := by
    intro h
    have := List.append_cancel_left h
    simp [keystoreFileName] at this
  simp only [generateKeystore, hex, if_true, hks]
  rw [FS.lookup_write_ne fs ks hne1, hprops]
  refine ⟨trivial, trivial, ?_, ?_⟩
  · rw [FS.lookup_write_ne _ props hne2]
    exact FS.lookup_write_self fs _ ks
  · exact FS.lookup_write_self _ _ props

/-- Witness for the amended C5 at a concrete cache. -/
theorem generateKeystore_cached_reusesVerbatim_witness :
    (generateKeystore ⟨"a", "b", "c", "d", "e", "f", "g", "h", "i"⟩ 1 "X" ["wc"]
        [(["my-release-key.jks"], "KS"), (["key.properties"], "PROPS")]).spawned = [] ∧
    (generateKeystore ⟨"a", "b", "c", "d", "e", "f", "g", "h", "i"⟩ 1 "X" ["wc"]
        [(["my-release-key.jks"], "KS"), (["key.properties"], "PROPS")]).prompts = 0 ∧
    (generateKeystore ⟨"a", "b", "c", "d", "e", "f", "g", "h", "i"⟩ 1 "X" ["wc"]
        [(["my-release-key.jks"], "KS"), (["key.properties"], "PROPS")]).fs.lookup
      (["wc"] ++ ["android", keystoreFileName]) = some "KS" ∧
    (generateKeystore ⟨"a", "b", "c", "d", "e", "f", "g", "h", "i"⟩ 1 "X" ["wc"]
        [(["my-release-key.jks"], "KS"), (["key.properties"], "PROPS")]).fs.lookup
      (["wc"] ++ ["android", "key.properties"]) = some "PROPS" :=
  generateKeystore_cached_reusesVerbatim ⟨"a", "b", "c", "d", "e", "f", "g", "h", "i"⟩
    1 "X" ["wc"] _ "KS" "PROPS" (by decide) (by decide)

/-! ## Asset Updater (claim C8) -/

theorem iconDest_inj (projectDir : Path) {d1 d2 : String}
    (h : iconDest projectDir d1 = iconDest projectDir d2) : d1 = d2 := by
  have h' := List.append_cancel_left (h : projectDir ++ _ = projectDir ++ _)
  simpa using h'

theorem updateAppIcon_foldl_errs (resize : String → Nat → Except String String)
    (icon : String) (projectDir : Path) :
    ∀ (targets : List (Nat × String)) (fs0 : FS) (errs0 : List String),
      (targets.foldl (fun acc t =>
        match resize icon t.1 with
        | .ok out => (acc.1.write (iconDest projectDir t.2) out, acc.2)
        | .error e => (acc.1, acc.2 ++ [e])) (fs0, errs0)).2 =
      errs0 ++ resizeFailures resize icon targets := by
  intro targets
  induction targets with
  | nil => intro fs0 errs0; simp [resizeFailures]
  | cons t rest ih =>
    intro fs0 errs0
    rw [List.foldl_cons]
    cases hr : resize icon t.1 with
    | ok out =>
      simp only [hr]
      rw [ih]
      simp [resizeFailures, hr]
    | error e =>
      simp only [hr]
      rw [ih]
      simp [resizeFailures, hr]

theorem updateAppIcon_foldl_lookup_ne (resize : String → Nat → Except String String)
    (icon : String) (projectDir : Path) :
    ∀ (targets : List (Nat × String)) (fs0 : FS) (errs0 : List String) (p : Path),
      (∀ t ∈ targets, iconDest projectDir t.2 ≠ p) →
      (targets.foldl (fun acc t =>
        match resize icon t.1 with
        | .ok out => (acc.1.write (iconDest projectDir t.2) out, acc.2)
        | .error e => (acc.1, acc.2 ++ [e])) (fs0, errs0)).1.lookup p = fs0.lookup p := by
  intro targets
  induction targets with
  | nil => intro fs0 errs0 p _; rfl
  | cons t rest ih =>
    intro fs0 errs0 p hne
    rw [List.foldl_cons]
    have hrest : ∀ v ∈ rest, iconDest projectDir v.2 ≠ p :=
      fun v hv => hne v (List.mem_cons_of_mem t hv)
    cases hr : resize icon t.1 with
    | ok out =>
      simp only [hr]
      rw [ih _ _ _ hrest]
      exact FS.lookup_write_ne fs0 out (fun h => hne t (List.mem_cons_self t rest) h.symm)
    | error e =>
      simp only [hr]
      exact ih _ _ _ hrest

theorem updateAppIcon_foldl_writes (resize : String → Nat → Except String String)
    (icon : String) (projectDir : Path) :
    ∀ (targets : List (Nat × String)) (fs0 : FS) (errs0 : List String)
      (t : Nat × String) (out : String),
      t ∈ targets → resize icon t.1 = .ok out →
      (targets.map (fun u => u.2)).Nodup →
      (targets.foldl (fun acc t =>
        match resize icon t.1 with
        | .ok out => (acc.1.write (iconDest projectDir t.2) out, acc.2)
        | .error e => (acc.1, acc.2 ++ [e])) (fs0, errs0)).1.lookup
        (iconDest projectDir t.2) = some out := by
  intro targets
  induction targets with
  | nil => intro fs0 errs0 t out ht; cases ht
  | cons u rest ih =>
    intro fs0 errs0 t out ht hok hnd
    rw [List.foldl_cons]
    rw [List.map_cons] at hnd
    have hcons := List.nodup_cons.mp hnd
    rcases List.mem_cons.mp ht with heq | hmem
    · subst heq
      simp only [hok]
      have hrest : ∀ v ∈ rest, iconDest projectDir v.2 ≠ iconDest projectDir t.2 := by
        intro v hv h
        exact hcons.1 (iconDest_inj projectDir h ▸ List.mem_map_of_mem (fun u => u.2) hv)
      rw [updateAppIcon_foldl_lookup_ne resize icon projectDir rest _ errs0 _ hrest]
      exact FS.lookup_write_self fs0 _ out
    · have hndr : (rest.map (fun u => u.2)).Nodup := hcons.2
      cases hr : resize icon u.1 with
      | ok o =>
        simp only [hr]
        exact ih _ _ t out hmem hok hndr
      | error e =>
        simp only [hr]
        exact ih _ _ t out hmem hok hndr

/-- C8 amended: with a custom icon present, every resize in the fixed table
is attempted regardless of other entries failing — each succeeding resize's
output lands at its own destination — but the caller sees only the *first*
failure in table order (`Promise.all` rejects with the first rejection), not
every individual failure. -/
theorem updateAppIcon_attemptsAll_surfacesFirstFailure
    (resize : String → Nat → Except String String) (projectDir : Path) (fs : FS)
    (icon : String) (hicon : fs.lookup iconSourcePath = some icon) :
    ((updateAppIcon resize projectDir fs).2 =
      match (resizeFailures resize icon androidTargets).head? with
      | some e => .error e
      | none => .ok ()) ∧
    (∀ t ∈ androidTargets, ∀ out, resize icon t.1 = .ok out →
      (updateAppIcon resize projectDir fs).1.lookup (iconDest projectDir t.2) = some out) := by
  unfold updateAppIcon
  rw [hicon]
  constructor
  · have herrs := updateAppIcon_foldl_errs resize icon projectDir androidTargets fs []
    show (match (androidTargets.foldl _ (fs, ([] : List String))).2 with
      | [] => (.ok () : Except String Unit)
      | e :: _ => .error e) = _
    rw [herrs]
    cases hf : resizeFailures resize icon androidTargets with
    | nil => simp
    | cons e rest => simp
  · intro t ht out hok
    exact updateAppIcon_foldl_writes resize icon projectDir androidTargets fs []
      t out ht hok (by decide)

/-- Witness for the amended C8: sizes 48 and 96 fail, the others succeed;
the surfaced result is the first failure and the 72-pixel icon is written. -/
theorem updateAppIcon_attemptsAll_surfacesFirstFailure_witness :
    ((updateAppIcon (fun _ n => if n = 48 then .error "E48"
        else if n = 96 then .error "E96" else .ok "IMG") ["p"]
        [(["icon.png"], "SRC")]).2 = .error "E48") ∧
    ((updateAppIcon (fun _ n => if n = 48 then .error "E48"
        else if n = 96 then .error "E96" else .ok "IMG") ["p"]
        [(["icon.png"], "SRC")]).1.lookup (iconDest ["p"] "mipmap-hdpi") = some "IMG") := by
  have h := updateAppIcon_attemptsAll_surfacesFirstFailure
    (fun _ n => if n = 48 then .error "E48"
      else if n = 96 then .error "E96" else .ok "IMG") ["p"]
    [(["icon.png"], "SRC")] "SRC" rfl
  exact ⟨h.1, h.2 (72, "mipmap-hdpi") (by decide) "IMG" rfl⟩

/-- C8 counterexample: two icon-update runs that differ only in the error of
the *second* failing resize produce identical results — the file system and
the surfaced rejection are the same — so the second (and any later)
individual failure is never surfaced to the caller. -/
theorem updateAppIcon_firstFailureOnly_cex :
    updateAppIcon (fun _ n => if n = 48 then .error "E48"
        else if n = 72 then .error "E72" else .ok "IMG") ["p"]
        [(["icon.png"], "SRC")] =
      updateAppIcon (fun _ n => if n = 48 then .error "E48"
        else if n = 72 then .error "E72-other" else .ok "IMG") ["p"]
        [(["icon.png"], "SRC")] ∧
    (fun (_ : String) (n : Nat) =>
      if n = 48 then (Except.error "E48" : Except String String)
      else if n = 72 then .error "E72" else .ok "IMG") "SRC" 72 = .error "E72" ∧
    (fun (_ : String) (n : Nat) =>
      if n = 48 then (Except.error "E48" : Except String String)
      else if n = 72 then .error "E72-other" else .ok "IMG") "SRC" 72 =
        .error "E72-other" ∧
    ("E72" : String) ≠ "E72-other" :=
  ⟨rfl, rfl, rfl, by decide⟩

/-! ## Identity Rewriter on an unchanged identity (claim C10) -/

theorem manifestRel_ne_kotlinSub (X : List String) :
    manifestRelPath ≠ kotlinRelPath ++ X := by
  intro h
  have h4 := congrArg (fun l => l.get? 4) h
  simp [manifestRelPath, kotlinRelPath] at h4

theorem gradleRel_ne_kotlinSub (X : List String) :
    gradleRelPath ≠ kotlinRelPath ++ X := by
  intro h
  have h2 := congrArg (fun l => l.get? 2) h
  simp [gradleRelPath, kotlinRelPath] at h2

theorem moveSync_same_of_existsFile (fs : FS) (p : Path)
    (h : fs.existsFile p = true) :
    moveSync fs p p = .error "Source and destination must not be the same." := by
  rcases Option.isSome_iff_exists.mp h with ⟨c, hc⟩
  simp only [moveSync, hc, if_true]

/-- C10: if the requested NEW bundle identifier equals the OLD package
identifier read from the manifest, the old and new package paths coincide,
so the entry-file relocation invokes `moveSync` with identical source and
destination paths; the rewrite therefore throws `Source and destination
must not be the same.` instead of succeeding as a no-op. -/
theorem updateAndroidFiles_sameIdentity_throws (bundleName appName : String)
    (projectDir : Path) (fs : FS) (manifest gradle : String)
    (hm : fs.lookup (projectDir ++ manifestRelPath) = some manifest)
    (hold : scanCaptureQuoted pkgAttrLit manifest.data = some bundleName.data)
    (hg : fs.lookup (projectDir ++ gradleRelPath) = some gradle)
    (hkt : fs.existsFile (projectDir ++ kotlinRelPath ++ splitOnDot bundleName ++
      ["MainActivity.kt"]) = true) :
    updateAndroidFiles bundleName appName projectDir fs =
      .error "Source and destination must not be the same." := by
  have hkt_ne_m : projectDir ++ kotlinRelPath ++ splitOnDot bundleName ++
      ["MainActivity.kt"] ≠ projectDir ++ manifestRelPath := by
    intro h
    rw [show projectDir ++ kotlinRelPath ++ splitOnDot bundleName ++ ["MainActivity.kt"] =
        projectDir ++ (kotlinRelPath ++ (splitOnDot bundleName ++ ["MainActivity.kt"])) by
      simp [List.append_assoc]] at h
    exact manifestRel_ne_kotlinSub _ (List.append_cancel_left h.symm)
  have hkt_ne_g : projectDir ++ kotlinRelPath ++ splitOnDot bundleName ++
      ["MainActivity.kt"] ≠ projectDir ++ gradleRelPath := by
    intro h
    rw [show projectDir ++ kotlinRelPath ++ splitOnDot bundleName ++ ["MainActivity.kt"] =
        projectDir ++ (kotlinRelPath ++ (splitOnDot bundleName ++ ["MainActivity.kt"])) by
      simp [List.append_assoc]] at h
    exact gradleRel_ne_kotlinSub _ (List.append_cancel_left h.symm)
  have hne_gm : projectDir ++ gradleRelPath ≠ projectDir ++ manifestRelPath := by
    intro h
    have h' := List.append_cancel_left h
    simp [gradleRelPath, manifestRelPath] at h'
  simp only [updateAndroidFiles, hm, hold,
    show (⟨bundleName.data⟩ : String) = bundleName from rfl,
    FS.lookup_write_ne fs _ hne_gm, hg,
    FS.existsFile_write_ne _ _ hkt_ne_g, FS.existsFile_write_ne _ _ hkt_ne_m, hkt,
    if_true]
  rw [moveSync_same_of_existsFile _ _ (by
    rw [FS.existsFile_write_ne _ _ hkt_ne_g, FS.existsFile_write_ne _ _ hkt_ne_m]
    exact hkt)]

/-- Witness for C10: requesting the template's own identifier as the NEW
identifier makes the rewrite throw on the relocation step. -/
theorem updateAndroidFiles_sameIdentity_throws_witness :
    updateAndroidFiles "com.old.prep" "Acme" ["p"]
      [ (["p"] ++ manifestRelPath,
         "<manifest package=\"com.old.prep\" android:label=\"Old\">"),
        (["p"] ++ gradleRelPath, "applicationId \"com.old.prep\""),
        (["p"] ++ kotlinRelPath ++ ["com", "old", "prep", "MainActivity.kt"],
         "package com.old.prep\nclass MainActivity : FlutterActivity()\n") ] =
      .error "Source and destination must not be the same." :=
  updateAndroidFiles_sameIdentity_throws "com.old.prep" "Acme" ["p"] _ _ _
    rfl rfl rfl rfl

/-! ## Release-mode keytool gate (claim C6) -/

/-- C6: in Release mode, when the key-generation tool is not resolvable,
`main` exits with code 1 reporting `Error: keytool is not installed on your
system.` right after the `keytool -help` probe — the run's spawned-command
trace is exactly `[keytool -help]`, so no build subprocess (and no keystore
generation) is ever started. -/
theorem main_android_release_noKeytool_abortsBeforeBuild (env : Env) (fs0 : FS)
    (fs1 fs2 fs3 fs4 fs5 : FS) (projectDir : Path)
    (hmode : env.buildMode = .Release)
    (hktool : env.keytoolInstalled = false)
    (h1 : copyProject env.confirmDelete env.flutterAppPath env.bundleName fs0 =
      (fs1, .ok projectDir))
    (h2 : updateAppIcon env.resize projectDir fs1 = (fs2, .ok ()))
    (h3 : updateAndroidFiles env.bundleName env.appName projectDir fs2 = .ok fs3)
    (h4 : updateConfigFiles env.offlineCategoryId env.apiUrl env.androidProductId
      projectDir fs3 = .ok fs4)
    (h5 : updatePubspecVersion env.versionName env.versionCode projectDir fs4 = .ok fs5) :
    main_android env fs0 = ⟨fs5, ["keytool -help"],
      .exited 1 "Error: keytool is not installed on your system."⟩ := by
  simp only [main_android, h1, h2, h3, h4, hmode, h5, hktool, Bool.false_eq_true,
    if_false]

/-- Witness for C6: a full concrete Release run over the template project
with keytool absent. -/
theorem main_android_release_noKeytool_abortsBeforeBuild_witness :
    (main_android envRelNoKeytool templateFS).spawned = ["keytool -help"] ∧
    (main_android envRelNoKeytool templateFS).result =
      .exited 1 "Error: keytool is not installed on your system." := by
  rw [main_android_release_noKeytool_abortsBeforeBuild envRelNoKeytool templateFS
    _ _ _ _ _ _ rfl rfl rfl rfl rfl rfl rfl]
  exact ⟨rfl, rfl⟩

end FlutterRelease
